import Mathlib

/-!
Verification of the user-management core: the authentication and
authorization subsystem (token-based identity resolution in
`app/dependencies.py`, role checking in `require_role`, and the
`User` data model's mutation surface in `app/models/user_model.py`,
with the changeset validators of `app/schemas/user_schemas.py`).

The embedding is shallow: each Python function is translated to a pure
Lean function; SQLAlchemy attribute validators become `Except`-returning
setters; timestamps are `Nat` values supplied by an explicit clock
parameter; the external collaborators (`decode_token` from
`app/services/jwt_service.py` and the store lookup
`UserService.get_by_id`) are passed as function parameters, since the
code under `src/` calls them through an opaque interface.
-/

namespace UserMgmt

/-- Enumeration of user roles, from `app/models/user_model.py` (`class UserRole`). -/
inductive UserRole where
  | ANONYMOUS
  | AUTHENTICATED
  | MANAGER
  | ADMIN
deriving DecidableEq, Repr

/-- Lookup of a `UserRole` member by name, embedding Python's
`UserRole[role]` indexing used in `require_role`
(`app/dependencies.py` line 77); an unknown name raises `KeyError`,
modelled as `none`. -/
def UserRole.ofName : String → Option UserRole
  | "ANONYMOUS" => some .ANONYMOUS
  | "AUTHENTICATED" => some .AUTHENTICATED
  | "MANAGER" => some .MANAGER
  | "ADMIN" => some .ADMIN
  | _ => none

/-- The `User` entity of `app/models/user_model.py` (`class User(Base)`),
with the columns of the `users` table. Nullable columns are `Option`;
timestamps are `Nat` ticks; the UUID id is an opaque `String`. -/
structure User where
  id : String
  nickname : String
  email : String
  first_name : Option String
  last_name : Option String
  bio : Option String
  profile_picture_url : Option String
  linkedin_profile_url : Option String
  github_profile_url : Option String
  location : Option String
  role : UserRole
  is_professional : Bool
  professional_status_updated_at : Option Nat
  last_login_at : Option Nat
  failed_login_attempts : Nat
  is_locked : Bool
  created_at : Nat
  updated_at : Nat
  verification_token : Option String
  email_verified : Bool
  hashed_password : String
deriving DecidableEq, Repr

/-- Python's `str.startswith`, implemented structurally over the
character list so it evaluates inside the kernel. -/
def strStartsWith (s pre : String) : Bool :=
  pre.data.isPrefixOf s.data

/-- Python's `in` test for a single character in a string, implemented
structurally over the character list. -/
def strContains (s : String) (c : Char) : Bool :=
  s.data.contains c

/-- Embeds `User.validate_email` (`app/models/user_model.py` lines 61-66):
raises `ValueError` when the email does not contain an `@`. -/
def User.validate_email (email : String) : Except String String :=
  if ¬ strContains email '@' then .error "Invalid email format"
  else .ok email

/-- Embeds `User.validate_url` (`app/models/user_model.py` lines 69-74),
the SQLAlchemy validator on the `github_profile_url` and
`linkedin_profile_url` columns: raises `ValueError` when the value is
truthy (non-`None`, non-empty) and does not start with `http://` or
`https://`; otherwise returns the value unchanged. -/
def User.validate_url (key : String) (url : Option String) : Except String (Option String) :=
  match url with
  | none => .ok none
  | some u =>
    if u ≠ "" ∧ ¬ (strStartsWith u "http://" ∨ strStartsWith u "https://") then
      .error ("Invalid URL format for " ++ key)
    else
      .ok (some u)

/-- Assignment to the `linkedin_profile_url` attribute; SQLAlchemy routes
it through the `User.validate_url` validator, so an invalid value raises
and the field is not written. -/
def User.set_linkedin_profile_url (u : User) (url : Option String) : Except String User :=
  match User.validate_url "linkedin_profile_url" url with
  | .error e => .error e
  | .ok v => .ok { u with linkedin_profile_url := v }

/-- Assignment to the `github_profile_url` attribute; SQLAlchemy routes
it through the `User.validate_url` validator, so an invalid value raises
and the field is not written. -/
def User.set_github_profile_url (u : User) (url : Option String) : Except String User :=
  match User.validate_url "github_profile_url" url with
  | .error e => .error e
  | .ok v => .ok { u with github_profile_url := v }

/-- Python truthiness of an optional string (`if url:`): `None` and the
empty string are falsy. -/
def truthy : Option String → Bool
  | none => false
  | some s => s ≠ ""

/-- Embeds `User.update_profile` (`app/models/user_model.py` lines 83-105):
assigns the four required fields unconditionally (`profile_picture_url`
has no column validator), assigns the LinkedIn and GitHub URLs only when
truthy (these assignments run the `User.validate_url` validator), assigns
`location` when truthy, and finally refreshes `updated_at` (the method
sets it to `func.now()`, here the clock value `t`). -/
def User.update_profile (u : User) (first_name last_name bio profile_picture_url : String)
    (location linkedin_profile_url github_profile_url : Option String) (t : Nat) :
    Except String User :=
  let u1 : User := { u with
    first_name := some first_name
    last_name := some last_name
    bio := some bio
    profile_picture_url := some profile_picture_url }
  match (if truthy linkedin_profile_url then
           u1.set_linkedin_profile_url linkedin_profile_url
         else .ok u1) with
  | .error e => .error e
  | .ok u2 =>
    match (if truthy github_profile_url then
             u2.set_github_profile_url github_profile_url
           else .ok u2) with
    | .error e => .error e
    | .ok u3 =>
      let u4 : User := if truthy location then { u3 with location := location } else u3
      .ok { u4 with updated_at := t }

/-- Embeds `User.lock_account` (`app/models/user_model.py` lines 108-110). -/
def User.lock_account (u : User) : User :=
  { u with is_locked := true }

/-- Embeds `User.unlock_account` (`app/models/user_model.py` lines 113-115). -/
def User.unlock_account (u : User) : User :=
  { u with is_locked := false }

/-- Embeds `User.verify_email` (`app/models/user_model.py` lines 118-120). -/
def User.verify_email (u : User) : User :=
  { u with email_verified := true }

/-- Embeds `User.has_role` (`app/models/user_model.py` lines 123-125). -/
def User.has_role (u : User) (role_name : UserRole) : Bool :=
  u.role = role_name

/-- Embeds `User.update_professional_status` (`app/models/user_model.py`
lines 128-131): sets `is_professional` to `status` and unconditionally
sets `professional_status_updated_at` to the current time `t`. -/
def User.update_professional_status (u : User) (status : Bool) (t : Nat) : User :=
  { u with is_professional := status, professional_status_updated_at := some t }

/-- A decoded token payload as used by `get_current_user`
(`app/dependencies.py` lines 47-52): `payload.get("sub")` and
`payload.get("role")` each return the claim or `None`. -/
structure Payload where
  sub : Option String
  role : Option String
deriving DecidableEq, Repr

/-- Outcome of a FastAPI dependency in `app/dependencies.py`: either the
resolved user, or a raised `HTTPException` with its status code and
detail message. -/
inductive DepResult where
  | ok (u : User)
  | httpError (status : Nat) (detail : String)
deriving DecidableEq, Repr

/-- The `credentials_exception` constructed in `get_current_user`
(`app/dependencies.py` lines 40-44): HTTP 401. -/
def credentials_exception : DepResult :=
  .httpError 401 "Could not validate credentials"

/-- Embeds `get_current_user` (`app/dependencies.py` lines 35-67).
`decode_token` (from `app/services/jwt_service.py`) and the store lookup
`UserService.get_by_id` are external collaborators passed as parameters.
Steps, exactly as in the source: decode the token, raising the 401
`credentials_exception` when the payload is `None`; read the `sub` and
`role` claims, raising 401 when either is `None`; look the user up by
`sub`, raising 401 when not found; otherwise return the stored user.
The `role` claim is never compared with the stored `user.role`. -/
def get_current_user (decode_token : String → Option Payload)
    (get_by_id : String → Option User) (token : String) : DepResult :=
  match decode_token token with
  | none => credentials_exception
  | some payload =>
    match payload.sub, payload.role with
    | some user_id, some _user_role =>
      (match get_by_id user_id with
       | none => credentials_exception
       | some user => .ok user)
    | some _, none => credentials_exception
    | none, _ => credentials_exception

/-- Embeds the `role_checker` closure returned by `require_role`
(`app/dependencies.py` lines 70-81), applied to an already-resolved
`current_user`: converts each role-name string to a `UserRole` member
(`UserRole[role]`; an unknown name raises `KeyError`, surfaced by FastAPI
as a 500 server error), then raises HTTP 403 when `current_user.role` is
not among the allowed roles, and returns the user otherwise. -/
def role_checker (roles : List String) (current_user : User) : DepResult :=
  match roles.mapM UserRole.ofName with
  | none => .httpError 500 "KeyError"
  | some allowed_roles =>
    if current_user.role ∈ allowed_roles then .ok current_user
    else .httpError 403 "Operation not permitted"

/-- Python's `\s` whitespace class (ASCII range), used by the URL regex of
`app/schemas/user_schemas.py`. -/
def isPyWs (c : Char) : Bool :=
  c = ' ' ∨ c = '\t' ∨ c = '\n' ∨ c = '\r' ∨ c = '\x0b' ∨ c = '\x0c'

/-- Matching of the trailing part `[^\s]*$` of the URL regex against the
remaining characters: all characters are non-whitespace, or all but a
single final newline are (Python's `$` also matches just before a
string-final newline). -/
def urlTailMatches (l : List Char) : Bool :=
  l.all (fun c => ¬ isPyWs c) ∨
    (l.getLast? = some '\n' ∧ l.dropLast.all (fun c => ¬ isPyWs c))

/-- Matching of the full URL regex of `app/schemas/user_schemas.py`
line 15 against a string: a literal scheme chunk, then one character that
is neither whitespace nor one of the five excluded punctuation marks,
then one character other than newline, then the anchored non-whitespace
tail. -/
def urlRegexMatch (s : String) : Bool :=
  let body : Option (List Char) :=
    if strStartsWith s "https://" then some (s.data.drop 8)
    else if strStartsWith s "http://" then some (s.data.drop 7)
    else none
  match body with
  | none => false
  | some (c1 :: c2 :: rest) =>
    (¬ isPyWs c1) ∧ c1 ≠ '/' ∧ c1 ≠ '$' ∧ c1 ≠ '.' ∧ c1 ≠ '?' ∧ c1 ≠ '#' ∧
      c2 ≠ '\n' ∧ urlTailMatches rest
  | some _ => false

/-- Embeds `validate_url` of `app/schemas/user_schemas.py` lines 12-18:
when the value is truthy (non-`None`, non-empty) it must match the URL
regex, else `ValueError`; falsy values pass through unvalidated. -/
def validate_url (url : Option String) : Except String (Option String) :=
  match url with
  | none => .ok none
  | some u =>
    if u ≠ "" then
      if urlRegexMatch u then .ok (some u) else .error "Invalid URL format"
    else .ok (some u)

/-- A single field-value pair of an update changeset, covering the fields
accepted by `UserUpdate` in `app/schemas/user_schemas.py` plus
`is_professional`, which the update path of the tests also carries. -/
inductive FieldVal where
  | email (v : String)
  | nickname (v : String)
  | first_name (v : String)
  | last_name (v : String)
  | bio (v : String)
  | profile_picture_url (v : String)
  | linkedin_profile_url (v : String)
  | github_profile_url (v : String)
  | location (v : String)
  | password (v : String)
  | role (v : UserRole)
  | is_professional (v : Bool)
deriving DecidableEq, Repr

/-- Python truthiness of a changeset value, as tested by
`any(values.values())`: empty strings and `False` are falsy, enum members
are truthy. -/
def FieldVal.pyTruthy : FieldVal → Bool
  | .email v | .nickname v | .first_name v | .last_name v | .bio v
  | .profile_picture_url v | .linkedin_profile_url v | .github_profile_url v
  | .location v | .password v => v ≠ ""
  | .role _ => true
  | .is_professional b => b

/-- Embeds the `check_at_least_one_value` root validator of `UserUpdate`
(`app/schemas/user_schemas.py` lines 57-61): raises `ValueError` when
`any(values.values())` is false, i.e. when no provided value is truthy;
otherwise passes the values through. -/
def check_at_least_one_value (values : List FieldVal) : Except String (List FieldVal) :=
  if values.any FieldVal.pyTruthy then .ok values
  else .error "At least one field must be provided for update"

/-- Per-field validation of a changeset value against the invariants of
the schema layer: the three URL fields run `validate_url` of
`app/schemas/user_schemas.py` (truthy values must match the URL regex),
`email` must contain an `@` (the shape required by
`User.validate_email`), and `nickname` must satisfy the `UserUpdate`
field constraints (min length 3, pattern of word characters and
hyphens). -/
def fieldValid : FieldVal → Bool
  | .email v => strContains v '@'
  | .nickname v =>
      3 ≤ v.data.length ∧ v.data.all (fun c => c.isAlphanum ∨ c = '_' ∨ c = '-')
  | .profile_picture_url v | .linkedin_profile_url v | .github_profile_url v =>
      v = "" ∨ urlRegexMatch v
  | .first_name _ | .last_name _ | .bio _ | .location _ | .password _
  | .role _ | .is_professional _ => true

/-- Application of one validated field to the record. `password` is
stored through the hashing collaborator `hashFn`; `is_professional` goes
through `User.update_professional_status` from
`app/models/user_model.py`, which also stamps
`professional_status_updated_at`. -/
def applyField (hashFn : String → String) (u : User) (f : FieldVal) (t : Nat) : User :=
  match f with
  | .email v => { u with email := v }
  | .nickname v => { u with nickname := v }
  | .first_name v => { u with first_name := some v }
  | .last_name v => { u with last_name := some v }
  | .bio v => { u with bio := some v }
  | .profile_picture_url v => { u with profile_picture_url := some v }
  | .linkedin_profile_url v => { u with linkedin_profile_url := some v }
  | .github_profile_url v => { u with github_profile_url := some v }
  | .location v => { u with location := some v }
  | .password v => { u with hashed_password := hashFn v }
  | .role r => { u with role := r }
  | .is_professional b => User.update_professional_status u b t

/-- Modelled from the spec: `UserService.update` — the `apply_update`
operation of section 4.4 — is not under `src/`; only its validators and
the model methods it drives are. Following the spec's contract, the
changeset first passes the `check_at_least_one_value` root validator
(from `src`), then every present field is validated (`fieldValid`, built
from the validators in `src`) before any field is applied; if any field
fails, the whole changeset is rejected and the record is left unchanged
(the error result carries no updated record). An accepted changeset is
applied field by field and `updated_at` is refreshed to the commit time
`t` (the `onupdate=func.now()` column default of
`app/models/user_model.py` line 53). -/
def apply_update (hashFn : String → String) (u : User) (changeset : List FieldVal)
    (t : Nat) : Except String User :=
  match check_at_least_one_value changeset with
  | .error e => .error e
  | .ok values =>
    if values.all fieldValid then
      .ok { values.foldl (fun acc f => applyField hashFn acc f t) u with updated_at := t }
    else .error "ValidationError"

/-- The store commit applied to a flushed dirty record: the `updated_at`
column of `app/models/user_model.py` line 53 carries
`onupdate=func.now()`, so a successful UPDATE refreshes `updated_at` to
the commit time. -/
def commit (u : User) (t : Nat) : User :=
  { u with updated_at := t }

/-- One mutation operation of the core's surface (section 4.5 plus the
profile mutator): a profile update, lock, unlock, verify-email, or a
professional-status change. -/
inductive Op where
  | profile (first_name last_name bio profile_picture_url : String)
      (location linkedin_profile_url github_profile_url : Option String)
  | lock
  | unlock
  | verifyEmail
  | professional (status : Bool)
deriving DecidableEq, Repr

/-- A mutation operation as committed through the store at time `t`: the
model method runs, then the flush applies the `onupdate` refresh of
`updated_at` (`commit`). `User.update_profile` already sets `updated_at`
itself (line 105) and may instead raise on an invalid URL. -/
def applyOp (u : User) (op : Op) (t : Nat) : Except String User :=
  match op with
  | .profile fn ln bio ppu loc li gh =>
      User.update_profile u fn ln bio ppu loc li gh t
  | .lock => .ok (commit u.lock_account t)
  | .unlock => .ok (commit u.unlock_account t)
  | .verifyEmail => .ok (commit u.verify_email t)
  | .professional b => .ok (commit (u.update_professional_status b t) t)

/-- Running a sequence of committed operations, each with its commit
time, stopping at the first raised error. -/
def runOps : User → List (Op × Nat) → Except String User
  | u, [] => .ok u
  | u, (op, t) :: rest =>
    match applyOp u op t with
    | .error e => .error e
    | .ok u1 => runOps u1 rest

/-- The commit times of an operation sequence are non-decreasing,
starting from a given lower bound (the record's current `updated_at`):
the clock collaborator of section 6 never goes backwards. -/
def timesMono : Nat → List (Op × Nat) → Bool
  | _, [] => true
  | t0, (_, t) :: rest => t0 ≤ t ∧ timesMono t rest

/-- A record's LinkedIn and GitHub URL fields are each absent, empty, or
`http://`- or `https://`-prefixed — the URL shape enforced by the
`User.validate_url` column validator. -/
def urlFieldOk : Option String → Bool
  | none => true
  | some s => s = "" ∨ strStartsWith s "http://" ∨ strStartsWith s "https://"

/-- The model-layer URL invariant: both validated URL columns
(`linkedin_profile_url`, `github_profile_url`) satisfy `urlFieldOk`. -/
def urlInv (u : User) : Bool :=
  urlFieldOk u.linkedin_profile_url ∧ urlFieldOk u.github_profile_url

/-- The `require_role` factory (`app/dependencies.py` lines 70-81) applied
to a role-name list yields the `role_checker` dependency. -/
def require_role (roles : List String) : User → DepResult :=
  role_checker roles

/-- A concrete baseline user record, used as fixture for witnesses and
counterexamples. -/
def baseUser : User :=
  { id := "U0", nickname := "nick", email := "a@b.c",
    first_name := none, last_name := none, bio := none,
    profile_picture_url := none, linkedin_profile_url := none,
    github_profile_url := none, location := none,
    role := .AUTHENTICATED, is_professional := false,
    professional_status_updated_at := none, last_login_at := none,
    failed_login_attempts := 0, is_locked := false,
    created_at := 0, updated_at := 0, verification_token := none,
    email_verified := false, hashed_password := "h" }

/-- A stored user `U1` whose persisted role is `ADMIN` (the stale-claim
scenario of section 8 of the spec). -/
def adminUser : User :=
  { baseUser with id := "U1", nickname := "adm", email := "adm@b.c", role := .ADMIN }

/-- A concrete token decoder fixture: token `T1` carries subject `U1`
with role claim `MANAGER`; token `T0` carries subject `U0` with role
claim `AUTHENTICATED`; everything else fails to decode. -/
def decodeFix : String → Option Payload := fun t =>
  if t = "T1" then some { sub := some "U1", role := some "MANAGER" }
  else if t = "T0" then some { sub := some "U0", role := some "AUTHENTICATED" }
  else none

/-- A concrete store fixture: `U1` resolves to `adminUser` (stored role
`ADMIN`), `U0` to `baseUser`. -/
def storeFix : String → Option User := fun i =>
  if i = "U1" then some adminUser
  else if i = "U0" then some baseUser
  else none

/-- C2: for every user and required-role set, `require_role` returns the
user (Allowed) iff the user's stored role is a member of the set, raises
HTTP 403 (Forbidden) otherwise, and never raises HTTP 401
(Unauthenticated). Membership is exact — no role hierarchy. -/
theorem require_role_allows_iff_member (u : User) (names : List String)
    (rs : List UserRole) (h : names.mapM UserRole.ofName = some rs) :
    (require_role names u = .ok u ↔ u.role ∈ rs) ∧
    (u.role ∉ rs → require_role names u = .httpError 403 "Operation not permitted") ∧
    (∀ d, require_role names u ≠ .httpError 401 d) := by
  unfold require_role role_checker
  rw [h]
  by_cases hm : u.role ∈ rs <;> simp [hm]

/-- Witness for C2: an `ADMIN` user passes a check requiring
`["ADMIN", "MANAGER"]`. -/
theorem require_role_allows_iff_member_witness :
    require_role ["ADMIN", "MANAGER"] adminUser = .ok adminUser :=
  (require_role_allows_iff_member adminUser ["ADMIN", "MANAGER"]
      [.ADMIN, .MANAGER] (by decide)).1.mpr (by decide)

/-- C5: `apply_update` with an empty changeset always fails with the
`ValidationError` raised by the `check_at_least_one_value` validator and
never produces an updated record. -/
theorem apply_update_empty_changeset_fails (hashFn : String → String)
    (u : User) (t : Nat) :
    apply_update hashFn u [] t =
      .error "At least one field must be provided for update" ∧
    ∀ u', apply_update hashFn u [] t ≠ .ok u' := by
  constructor <;> simp [apply_update, check_at_least_one_value]

/-- Witness for C5 at a concrete user and time. -/
theorem apply_update_empty_changeset_fails_witness :
    apply_update (fun s => s) baseUser [] 3 =
      .error "At least one field must be provided for update" :=
  (apply_update_empty_changeset_fails (fun s => s) baseUser 3).1

/-- C8: `lock_account`, `unlock_account` and `verify_email` are
unconditional and idempotent: a second consecutive call produces exactly
the state of the first, with `is_locked` respectively `true`/`false` and
`email_verified` `true`, and no error is possible (the methods are
total). -/
theorem lock_unlock_verify_idempotent (u : User) :
    u.lock_account.lock_account = u.lock_account ∧
    u.lock_account.is_locked = true ∧
    u.unlock_account.unlock_account = u.unlock_account ∧
    u.unlock_account.is_locked = false ∧
    u.verify_email.verify_email = u.verify_email ∧
    u.verify_email.email_verified = true :=
  ⟨rfl, rfl, rfl, rfl, rfl, rfl⟩

/-- Witness for C8 at the concrete baseline user. -/
theorem lock_unlock_verify_idempotent_witness :
    baseUser.lock_account.lock_account = baseUser.lock_account :=
  (lock_unlock_verify_idempotent baseUser).1

/-- C10: a non-empty changeset in which every provided value is falsy
(`False`, the empty string) is rejected by the `check_at_least_one_value`
validator — it tests the truthiness of the values via
`any(values.values())`, not the presence of fields — so `apply_update`
fails with the same `ValueError` message. -/
theorem all_falsy_changeset_rejected (hashFn : String → String) (u : User)
    (cs : List FieldVal) (t : Nat) (hne : cs ≠ [])
    (hfalsy : ∀ f ∈ cs, f.pyTruthy = false) :
    check_at_least_one_value cs =
      .error "At least one field must be provided for update" ∧
    apply_update hashFn u cs t =
      .error "At least one field must be provided for update" := by
  have hany : cs.any FieldVal.pyTruthy = false := by
    rw [Bool.eq_false_iff]
    intro hcontra
    rw [List.any_eq_true] at hcontra
    obtain ⟨f, hf, hft⟩ := hcontra
    rw [hfalsy f hf] at hft
    exact Bool.false_ne_true hft
  refine ⟨?_, ?_⟩ <;> simp [apply_update, check_at_least_one_value, hany]

/-- Witness for C10: the changeset `[is_professional := false]` has a
field present but is rejected. -/
theorem all_falsy_changeset_rejected_witness :
    apply_update (fun s => s) baseUser [.is_professional false] 3 =
      .error "At least one field must be provided for update" :=
  (all_falsy_changeset_rejected (fun s => s) baseUser [.is_professional false] 3
      (by decide) (by decide)).2

/-- Counterexample to C1: token `T1` decodes to subject `U1` with role
claim `MANAGER`, while the store holds `U1` with role `ADMIN` — the role
claim differs from the stored role — yet `get_current_user` returns the
stored user, not the 401 `credentials_exception`: the mismatch is not
treated as unauthenticated (the role claim is never compared with the
stored role). -/
theorem token_role_mismatch_not_unauthenticated :
    decodeFix "T1" = some { sub := some "U1", role := some "MANAGER" } ∧
    storeFix "U1" = some adminUser ∧
    adminUser.role = .ADMIN ∧
    UserRole.ofName "MANAGER" ≠ some adminUser.role ∧
    get_current_user decodeFix storeFix "T1" = .ok adminUser ∧
    get_current_user decodeFix storeFix "T1" ≠ credentials_exception := by
  decide

/-- C1 (amended): `get_current_user` never compares the token's role
claim with the stored role; whenever the token decodes with both claims
present and the subject resolves in the store, it returns the stored
user record — whatever the role claim `r` says — so downstream
authorization sees the stored role. A mismatching role claim is NOT
rejected as unauthenticated. -/
theorem resolve_identity_returns_stored_role (d : String → Option Payload)
    (s : String → Option User) (token : String) (p : Payload) (i r : String)
    (u : User) (hd : d token = some p) (hs : p.sub = some i)
    (hr : p.role = some r) (hu : s i = some u) :
    get_current_user d s token = .ok u ∧
    get_current_user d s token ≠ credentials_exception := by
  unfold get_current_user
  rw [hd]
  obtain ⟨psub, prole⟩ := p
  dsimp only at hs hr ⊢
  subst hs
  subst hr
  dsimp only
  rw [hu]
  exact ⟨rfl, by simp [credentials_exception]⟩

/-- Witness for the amended C1: the stale-claim scenario itself — role
claim `MANAGER`, stored role `ADMIN` — resolves to the stored `ADMIN`
user. -/
theorem resolve_identity_returns_stored_role_witness :
    get_current_user decodeFix storeFix "T1" = .ok adminUser ∧
    get_current_user decodeFix storeFix "T1" ≠ credentials_exception :=
  resolve_identity_returns_stored_role decodeFix storeFix "T1"
    { sub := some "U1", role := some "MANAGER" } "U1" "MANAGER" adminUser
    (by decide) rfl rfl (by decide)

/-- C3: `get_current_user` returns a user exactly when the token decodes
to a payload carrying both the subject and role claims and the store
lookup by subject finds that user; in every other case the outcome is
the 401 `credentials_exception` (and nothing else). -/
theorem get_current_user_characterization (d : String → Option Payload)
    (s : String → Option User) (token : String) :
    (∀ u, get_current_user d s token = .ok u ↔
      ∃ p i r, d token = some p ∧ p.sub = some i ∧ p.role = some r ∧
        s i = some u) ∧
    (get_current_user d s token = credentials_exception ∨
      ∃ u, get_current_user d s token = .ok u) := by
  constructor
  · intro u
    constructor
    · intro h
      unfold get_current_user at h
      cases hd : d token with
      | none =>
        rw [hd] at h
        exact absurd h (by simp [credentials_exception])
      | some p =>
        rw [hd] at h
        obtain ⟨psub, prole⟩ := p
        cases psub with
        | none =>
          exact absurd h (by simp [credentials_exception])
        | some i =>
          cases prole with
          | none =>
            exact absurd h (by simp [credentials_exception])
          | some r =>
            dsimp only at h
            cases hu : s i with
            | none =>
              rw [hu] at h
              exact absurd h (by simp [credentials_exception])
            | some v =>
              rw [hu] at h
              cases h
              exact ⟨⟨some i, some r⟩, i, r, rfl, rfl, rfl, hu⟩
    · rintro ⟨p', i', r', hp', hs', hr', hu'⟩
      unfold get_current_user
      rw [hp']
      obtain ⟨a, b⟩ := p'
      dsimp only at hs' hr' ⊢
      subst hs'
      subst hr'
      dsimp only
      rw [hu']
  · unfold get_current_user
    cases hd : d token with
    | none => left; rfl
    | some p =>
      obtain ⟨psub, prole⟩ := p
      cases psub with
      | none => left; rfl
      | some i =>
        cases prole with
        | none => left; rfl
        | some r =>
          dsimp only
          cases hu : s i with
          | none => left; rfl
          | some v => right; exact ⟨v, rfl⟩

/-- Witness for C3: token `T0` resolves to the stored `baseUser`. -/
theorem get_current_user_characterization_witness :
    get_current_user decodeFix storeFix "T0" = .ok baseUser :=
  ((get_current_user_characterization decodeFix storeFix "T0").1 baseUser).mpr
    ⟨{ sub := some "U0", role := some "AUTHENTICATED" }, "U0", "AUTHENTICATED",
      by decide, rfl, rfl, by decide⟩

/-- A successful `User.validate_url` returns its input unchanged, and
that input satisfies the `urlFieldOk` shape (absent, empty, or
`http`/`https`-prefixed). -/
theorem validate_url_ok_shape (key : String) (url v : Option String)
    (h : User.validate_url key url = .ok v) :
    v = url ∧ urlFieldOk url = true := by
  unfold User.validate_url at h
  cases url with
  | none =>
    injection h with h2
    subst h2
    exact ⟨rfl, rfl⟩
  | some s =>
    dsimp only at h
    by_cases hc : s ≠ "" ∧ ¬ (strStartsWith s "http://" ∨ strStartsWith s "https://")
    · rw [if_pos hc] at h
      simp at h
    · rw [if_neg hc] at h
      injection h with h2
      subst h2
      refine ⟨rfl, ?_⟩
      simp only [urlFieldOk, decide_eq_true_eq]
      by_cases hs : s = ""
      · exact Or.inl hs
      · exact Or.inr (not_not.mp (not_and.mp hc hs))

/-- A successful assignment to `linkedin_profile_url` writes exactly the
given value, which satisfies the URL shape. -/
theorem set_linkedin_profile_url_ok (u : User) (v : Option String) (u' : User)
    (h : u.set_linkedin_profile_url v = .ok u') :
    u' = { u with linkedin_profile_url := v } ∧ urlFieldOk v = true := by
  unfold User.set_linkedin_profile_url at h
  cases hv : User.validate_url "linkedin_profile_url" v with
  | error e => rw [hv] at h; simp at h
  | ok w =>
    rw [hv] at h
    obtain ⟨hw, hok⟩ := validate_url_ok_shape _ _ _ hv
    subst hw
    injection h with h2
    exact ⟨h2.symm, hok⟩

/-- A successful assignment to `github_profile_url` writes exactly the
given value, which satisfies the URL shape. -/
theorem set_github_profile_url_ok (u : User) (v : Option String) (u' : User)
    (h : u.set_github_profile_url v = .ok u') :
    u' = { u with github_profile_url := v } ∧ urlFieldOk v = true := by
  unfold User.set_github_profile_url at h
  cases hv : User.validate_url "github_profile_url" v with
  | error e => rw [hv] at h; simp at h
  | ok w =>
    rw [hv] at h
    obtain ⟨hw, hok⟩ := validate_url_ok_shape _ _ _ hv
    subst hw
    injection h with h2
    exact ⟨h2.symm, hok⟩

/-- Effect of the conditional LinkedIn assignment step of
`update_profile`: the field receives the new value exactly when it is
truthy (validated on the way in), and all other fields are untouched. -/
theorem cond_set_linkedin_ok (u1 : User) (li : Option String) (u2 : User)
    (h : (if truthy li then u1.set_linkedin_profile_url li else .ok u1) = .ok u2) :
    u2.linkedin_profile_url = (if truthy li then li else u1.linkedin_profile_url) ∧
    u2.github_profile_url = u1.github_profile_url ∧
    u2.updated_at = u1.updated_at ∧
    u2.professional_status_updated_at = u1.professional_status_updated_at ∧
    u2.is_professional = u1.is_professional ∧
    (truthy li = true → urlFieldOk li = true) := by
  by_cases hli : truthy li
  · rw [if_pos hli] at h
    rw [if_pos hli]
    obtain ⟨hu2, hok⟩ := set_linkedin_profile_url_ok _ _ _ h
    subst hu2
    exact ⟨rfl, rfl, rfl, rfl, rfl, fun _ => hok⟩
  · rw [if_neg hli] at h
    rw [if_neg hli]
    injection h with h2
    subst h2
    exact ⟨rfl, rfl, rfl, rfl, rfl, fun hc => absurd hc hli⟩

/-- Effect of the conditional GitHub assignment step of `update_profile`:
the field receives the new value exactly when it is truthy (validated on
the way in), and all other fields are untouched. -/
theorem cond_set_github_ok (u2 : User) (gh : Option String) (u3 : User)
    (h : (if truthy gh then u2.set_github_profile_url gh else .ok u2) = .ok u3) :
    u3.github_profile_url = (if truthy gh then gh else u2.github_profile_url) ∧
    u3.linkedin_profile_url = u2.linkedin_profile_url ∧
    u3.updated_at = u2.updated_at ∧
    u3.professional_status_updated_at = u2.professional_status_updated_at ∧
    u3.is_professional = u2.is_professional ∧
    (truthy gh = true → urlFieldOk gh = true) := by
  by_cases hgh : truthy gh
  · rw [if_pos hgh] at h
    rw [if_pos hgh]
    obtain ⟨hu3, hok⟩ := set_github_profile_url_ok _ _ _ h
    subst hu3
    exact ⟨rfl, rfl, rfl, rfl, rfl, fun _ => hok⟩
  · rw [if_neg hgh] at h
    rw [if_neg hgh]
    injection h with h2
    subst h2
    exact ⟨rfl, rfl, rfl, rfl, rfl, fun hc => absurd hc hgh⟩

/-- Shape of a successful `update_profile`: `updated_at` is refreshed to
`t`; the professional-status fields are untouched; the LinkedIn and
GitHub fields receive their new value exactly when truthy, in which case
the value passed the URL-shape validator. -/
theorem update_profile_ok_fields (u : User) (fn ln bio ppu : String)
    (loc li gh : Option String) (t : Nat) (u' : User)
    (h : User.update_profile u fn ln bio ppu loc li gh t = .ok u') :
    u'.updated_at = t ∧
    u'.professional_status_updated_at = u.professional_status_updated_at ∧
    u'.is_professional = u.is_professional ∧
    u'.linkedin_profile_url = (if truthy li then li else u.linkedin_profile_url) ∧
    u'.github_profile_url = (if truthy gh then gh else u.github_profile_url) ∧
    (truthy li = true → urlFieldOk li = true) ∧
    (truthy gh = true → urlFieldOk gh = true) := by
  unfold User.update_profile at h
  dsimp only at h
  split at h
  · simp at h
  · rename_i u2 heq1
    split at h
    · simp at h
    · rename_i u3 heq2
      injection h with h2
      subst h2
      obtain ⟨l1, l2, l3, l4, l5, l6⟩ := cond_set_linkedin_ok _ _ _ heq1
      obtain ⟨g1, g2, g3, g4, g5, g6⟩ := cond_set_github_ok _ _ _ heq2
      by_cases hloc : truthy loc
      · rw [if_pos hloc]
        refine ⟨rfl, ?_, ?_, ?_, ?_, l6, g6⟩
        · exact g4.trans l4
        · exact g5.trans l5
        · exact g2.trans l1
        · exact g1.trans (by rw [l2])
      · rw [if_neg hloc]
        refine ⟨rfl, ?_, ?_, ?_, ?_, l6, g6⟩
        · exact g4.trans l4
        · exact g5.trans l5
        · exact g2.trans l1
        · exact g1.trans (by rw [l2])

/-- A user that is already professional and whose status timestamp has
never been set. -/
def profUser : User := { baseUser with is_professional := true }

/-- Counterexample to C6: calling `update_professional_status true` on a
user whose `is_professional` is already `true` does not change the flag,
yet it still sets `professional_status_updated_at` (here from `none` to
`some 42`) — the timestamp is not set "if and only if" the flag changed;
it is set unconditionally on every call. -/
theorem professional_timestamp_set_without_change :
    (profUser.update_professional_status true 42).is_professional =
      profUser.is_professional ∧
    profUser.professional_status_updated_at = none ∧
    (profUser.update_professional_status true 42).professional_status_updated_at =
      some 42 :=
  ⟨rfl, rfl, rfl⟩

/-- C6 (amended): `update_professional_status` sets `is_professional` to
the requested value and unconditionally stamps
`professional_status_updated_at` with the current time — on every call,
whether or not the flag changed (so in particular whenever it did
change, as in the spec's scenario) — and no other mutation operation
(`lock_account`, `unlock_account`, `verify_email`, `update_profile`)
touches `professional_status_updated_at`. -/
theorem professional_timestamp_on_every_status_update (u : User) (b : Bool) (t : Nat) :
    ((u.update_professional_status b t).is_professional = b ∧
     (u.update_professional_status b t).professional_status_updated_at = some t) ∧
    u.lock_account.professional_status_updated_at =
      u.professional_status_updated_at ∧
    u.unlock_account.professional_status_updated_at =
      u.professional_status_updated_at ∧
    u.verify_email.professional_status_updated_at =
      u.professional_status_updated_at ∧
    ∀ fn ln bio ppu loc li gh u',
      User.update_profile u fn ln bio ppu loc li gh t = .ok u' →
      u'.professional_status_updated_at = u.professional_status_updated_at := by
  refine ⟨⟨rfl, rfl⟩, rfl, rfl, rfl, ?_⟩
  intro fn ln bio ppu loc li gh u' h
  exact (update_profile_ok_fields u fn ln bio ppu loc li gh t u' h).2.1

/-- Witness for the amended C6: the spec's scenario — setting
`is_professional` to `true` on a user holding `false` yields the new
flag and a freshly set timestamp. -/
theorem professional_timestamp_on_every_status_update_witness :
    (baseUser.update_professional_status true 9).is_professional = true ∧
    (baseUser.update_professional_status true 9).professional_status_updated_at =
      some 9 :=
  (professional_timestamp_on_every_status_update baseUser true 9).1

/-- Every successfully committed operation leaves `updated_at` equal to
its commit time. -/
theorem applyOp_ok_updated_at (u : User) (op : Op) (t : Nat) (u' : User)
    (h : applyOp u op t = .ok u') : u'.updated_at = t := by
  cases op with
  | profile fn ln bio ppu loc li gh =>
    exact (update_profile_ok_fields u fn ln bio ppu loc li gh t u' h).1
  | lock => injection h with h2; subst h2; rfl
  | unlock => injection h with h2; subst h2; rfl
  | verifyEmail => injection h with h2; subst h2; rfl
  | professional b => injection h with h2; subst h2; rfl

/-- C7: every successful mutation operation refreshes `updated_at` to
its commit time, and across any sequence of operations whose commit
times never decrease (the clock is monotone), `updated_at` is
monotonically non-decreasing. -/
theorem updated_at_refresh_and_monotone (u : User) (ops : List (Op × Nat)) (u' : User)
    (hmono : timesMono u.updated_at ops = true) (hrun : runOps u ops = .ok u') :
    u.updated_at ≤ u'.updated_at ∧
    ∀ v op t v', applyOp v op t = .ok v' → v'.updated_at = t := by
  refine ⟨?_, fun v op t v' h => applyOp_ok_updated_at v op t v' h⟩
  induction ops generalizing u with
  | nil =>
    unfold runOps at hrun
    injection hrun with h2
    subst h2
    exact le_refl _
  | cons pair tl ih =>
    obtain ⟨op, t⟩ := pair
    unfold runOps at hrun
    cases ha : applyOp u op t with
    | error e =>
      rw [ha] at hrun
      dsimp only at hrun
      simp at hrun
    | ok u1 =>
      rw [ha] at hrun
      dsimp only at hrun
      have h1 : u1.updated_at = t := applyOp_ok_updated_at u op t u1 ha
      unfold timesMono at hmono
      simp only [decide_eq_true_eq] at hmono
      obtain ⟨hle, hrest⟩ := hmono
      have hfin := ih u1 (by rw [h1]; exact hrest) hrun
      calc u.updated_at ≤ t := hle
        _ = u1.updated_at := h1.symm
        _ ≤ u'.updated_at := hfin

/-- A demonstration operation sequence with non-decreasing commit
times: first a lock at time 3, then a professional-status change at
time 5. -/
def opsDemo : List (Op × Nat) := [(.lock, 3), (.professional true, 5)]

/-- The record reached by `opsDemo` from `baseUser`. -/
def opsDemoFinal : User :=
  commit ((commit baseUser.lock_account 3).update_professional_status true 5) 5

/-- Witness for C7 on the concrete demonstration run. -/
theorem updated_at_refresh_and_monotone_witness :
    baseUser.updated_at ≤ opsDemoFinal.updated_at :=
  (updated_at_refresh_and_monotone baseUser opsDemo opsDemoFinal
      (by decide) (by rfl)).1

/-- C4: a changeset containing at least one field whose value fails
validation (for example a URL not matching the http/https shape) is
rejected whole by `apply_update` — the result is an error and no updated
record is ever produced, so nothing is applied. -/
theorem apply_update_invalid_field_atomic_rejection (hashFn : String → String)
    (u : User) (cs : List FieldVal) (t : Nat) (f : FieldVal) (hf : f ∈ cs)
    (hbad : fieldValid f = false) :
    (∃ e, apply_update hashFn u cs t = .error e) ∧
    ∀ u', apply_update hashFn u cs t ≠ .ok u' := by
  have hall : cs.all fieldValid = false := by
    rw [Bool.eq_false_iff]
    intro hcontra
    rw [List.all_eq_true] at hcontra
    have hft := hcontra f hf
    rw [hbad] at hft
    exact Bool.false_ne_true hft
  unfold apply_update check_at_least_one_value
  by_cases hany : cs.any FieldVal.pyTruthy
  · rw [if_pos hany]
    dsimp only
    simp [hall]
  · rw [if_neg hany]
    dsimp only
    simp

/-- Witness for C4: the spec's scenario changeset carrying
`github_profile_url := "htp:/bad"` (plus a valid bio) is rejected. -/
theorem apply_update_invalid_field_atomic_rejection_witness :
    ∃ e, apply_update (fun s => s) baseUser
      [.github_profile_url "htp:/bad", .bio "a bio"] 7 = .error e :=
  (apply_update_invalid_field_atomic_rejection (fun s => s) baseUser
      [.github_profile_url "htp:/bad", .bio "a bio"] 7
      (.github_profile_url "htp:/bad") (by decide) (by decide)).1

/-- Counterexample to C9: `update_profile` assigns
`profile_picture_url` without any validator (`User.validate_url` covers
only the LinkedIn and GitHub columns), so a core operation produces a
record whose non-empty `profile_picture_url` does not start with
`http://` or `https://`, with no validation error raised. -/
theorem profile_picture_url_not_validated :
    User.update_profile baseUser "A" "B" "bio" "htp:/bad" none none none 5 =
      .ok { baseUser with
              first_name := some "A", last_name := some "B",
              bio := some "bio", profile_picture_url := some "htp:/bad",
              updated_at := 5 } ∧
    truthy (some "htp:/bad") = true ∧
    urlFieldOk (some "htp:/bad") = false :=
  ⟨rfl, rfl, by decide⟩

/-- C9 (amended): the model layer enforces the http/https-prefix shape
for the LinkedIn and GitHub URL columns only — any attempt to assign a
non-empty unprefixed value to either raises `ValueError`, the schema
validator `validate_url` likewise rejects it, and the shape is an
invariant of the LinkedIn/GitHub fields under every successful core
operation; `profile_picture_url` is validated only at the schema
boundary, not by the model. -/
theorem model_url_invariant (u : User) (v : String) (op : Op) (t : Nat) (u' : User)
    (hv : v ≠ "")
    (hbad : ¬ (strStartsWith v "http://" ∨ strStartsWith v "https://"))
    (hinv : urlInv u = true) (hok : applyOp u op t = .ok u') :
    (∃ e, u.set_github_profile_url (some v) = .error e) ∧
    (∃ e, u.set_linkedin_profile_url (some v) = .error e) ∧
    validate_url (some v) = .error "Invalid URL format" ∧
    urlInv u' = true := by
  have hval : ∀ key, User.validate_url key (some v) =
      .error ("Invalid URL format for " ++ key) := by
    intro key
    unfold User.validate_url
    dsimp only
    rw [if_pos ⟨hv, hbad⟩]
  have hb1 : strStartsWith v "http://" = false := by
    rw [Bool.eq_false_iff]; intro hc; exact hbad (Or.inl hc)
  have hb2 : strStartsWith v "https://" = false := by
    rw [Bool.eq_false_iff]; intro hc; exact hbad (Or.inr hc)
  have hregex : urlRegexMatch v = false := by
    unfold urlRegexMatch
    rw [hb2, hb1]
    rfl
  refine ⟨⟨"Invalid URL format for " ++ "github_profile_url", ?_⟩,
         ⟨"Invalid URL format for " ++ "linkedin_profile_url", ?_⟩, ?_, ?_⟩
  · unfold User.set_github_profile_url
    rw [hval]
  · unfold User.set_linkedin_profile_url
    rw [hval]
  · unfold validate_url
    dsimp only
    rw [if_pos hv, hregex]
    rfl
  · simp only [urlInv, decide_eq_true_eq] at hinv ⊢
    cases op with
    | profile fn ln bio ppu loc li gh =>
      obtain ⟨h1, h2, h3, hli, hgh, hliok, hghok⟩ :=
        update_profile_ok_fields u fn ln bio ppu loc li gh t u' hok
      constructor
      · rw [hli]
        by_cases hc : truthy li
        · rw [if_pos hc]; exact hliok hc
        · rw [if_neg hc]; exact hinv.1
      · rw [hgh]
        by_cases hc : truthy gh
        · rw [if_pos hc]; exact hghok hc
        · rw [if_neg hc]; exact hinv.2
    | lock => injection hok with h2; subst h2; exact hinv
    | unlock => injection hok with h2; subst h2; exact hinv
    | verifyEmail => injection hok with h2; subst h2; exact hinv
    | professional b => injection hok with h2; subst h2; exact hinv

/-- Witness for the amended C9: `ftp://x` is rejected by both model
setters and by the schema validator, and a lock at time 4 preserves the
URL invariant of `baseUser`. -/
theorem model_url_invariant_witness :
    (∃ e, baseUser.set_github_profile_url (some "ftp://x") = .error e) ∧
    (∃ e, baseUser.set_linkedin_profile_url (some "ftp://x") = .error e) ∧
    validate_url (some "ftp://x") = .error "Invalid URL format" ∧
    urlInv (commit baseUser.lock_account 4) = true :=
  model_url_invariant baseUser "ftp://x" .lock 4 (commit baseUser.lock_account 4)
    (by decide) (by decide) (by decide) (by rfl)

end UserMgmt
